import Mathlib

/-!
Verification of the authentication/authorization core of the product-service
repository (`auth.py`, `main.py`, `models.py`, `schemas.py`).

The Python source is shallowly embedded: times are unix seconds (`Int`),
JWT claim values are a small JSON-value type, the relational store is a list
of user rows, exceptions are explicit result types.  Components implemented
entirely in third-party libraries (passlib's bcrypt hashing, python-jose's
JWT encode/decode, Python's builtin `str`/`int` conversions) are modelled
explicitly; each such model carries a doc comment saying what it stands for.
-/

namespace GkeDemo

/-! ### Decimal serialization of integers

Models Python's builtin `str` on an `int` and `int` on a `str`, as used for
the token subject claim (`str(sub)` in `create_access_token`,
`int(sub_claim)` in `verify_token`).  `str` of an integer is its decimal
representation; `int` of a string parses an optional sign followed by
decimal digits (the model omits Python's surrounding-whitespace tolerance,
which no claim exercises). -/

def digitChar : Nat → Char
  | 0 => '0' | 1 => '1' | 2 => '2' | 3 => '3' | 4 => '4'
  | 5 => '5' | 6 => '6' | 7 => '7' | 8 => '8' | 9 => '9'
  | _ => '*'

/-- Digit-list builder; structural on `fuel`, which the callers pick large
enough (`n < fuel`) for the division chain to bottom out. -/
def natDigitsGo : Nat → Nat → List Char
  | 0, _ => []
  | fuel + 1, n =>
    if n < 10 then [digitChar n]
    else natDigitsGo fuel (n / 10) ++ [digitChar (n % 10)]

/-- Decimal digit string of a natural number. -/
def natToDigitChars (n : Nat) : List Char := natDigitsGo (n + 1) n

/-- Python `str` on an integer: decimal representation, `-` sign for negatives. -/
def pyIntStr : Int → String
  | Int.ofNat n => ⟨natToDigitChars n⟩
  | Int.negSucc n => ⟨'-' :: natToDigitChars (n + 1)⟩

def digitVal (c : Char) : Option Nat :=
  if '0' ≤ c ∧ c ≤ '9' then some (c.toNat - 48) else none

def parseNatChars : List Char → Nat → Option Nat
  | [], a => some a
  | c :: rest, a =>
    match digitVal c with
    | some d => parseNatChars rest (10 * a + d)
    | none => none

/-- Parse a non-empty all-digit character list. -/
def parseNatDigits : List Char → Option Nat
  | [] => none
  | cs => parseNatChars cs 0

def pyCharsInt : List Char → Option Int
  | [] => none
  | c :: rest =>
    if c = '-' then (parseNatDigits rest).map (fun n => -(n : Int))
    else if c = '+' then (parseNatDigits rest).map (fun n => (n : Int))
    else (parseNatDigits (c :: rest)).map (fun n => (n : Int))

/-- Python `int` on a string: optional sign, then decimal digits; anything
else raises `ValueError`, modelled as `none`. -/
def pyStrInt (s : String) : Option Int := pyCharsInt s.data

/-! Roundtrip: `int(str(i)) = i`. -/

theorem digitVal_digitChar (d : Nat) (h : d < 10) :
    digitVal (digitChar d) = some d := by
  interval_cases d <;> decide

theorem digitChar_mem (d : Nat) (h : d < 10) :
    digitChar d ∈ ['0','1','2','3','4','5','6','7','8','9'] := by
  interval_cases d <;> decide

theorem parseNatChars_append (xs ys : List Char) (a : Nat) :
    parseNatChars (xs ++ ys) a =
      match parseNatChars xs a with
      | some b => parseNatChars ys b
      | none => none := by
  induction xs generalizing a with
  | nil => rfl
  | cons c rest ih =>
    simp only [List.cons_append, parseNatChars]
    cases digitVal c with
    | some d => exact ih _
    | none => rfl

theorem parseNatChars_natDigitsGo (f : Nat) :
    ∀ n a : Nat, n < f →
      parseNatChars (natDigitsGo f n) a =
        some (a * 10 ^ (natDigitsGo f n).length + n) := by
  induction f with
  | zero => intro n a h; omega
  | succ f ih =>
    intro n a h
    rw [natDigitsGo]
    by_cases h10 : n < 10
    · rw [if_pos h10]
      simp only [parseNatChars, digitVal_digitChar n h10, List.length_singleton,
        pow_one]
      congr 1
      omega
    · have hdiv : n / 10 < f := by omega
      rw [if_neg h10, parseNatChars_append, ih (n / 10) a hdiv]
      simp only [parseNatChars,
        digitVal_digitChar (n % 10) (Nat.mod_lt n (by omega)),
        List.length_append, List.length_singleton]
      have hn : 10 * (n / 10) + n % 10 = n := Nat.div_add_mod n 10
      congr 1
      rw [pow_succ]
      have h2 : 10 * (a * 10 ^ (natDigitsGo f (n / 10)).length + n / 10) + n % 10
          = a * (10 ^ (natDigitsGo f (n / 10)).length * 10)
            + (10 * (n / 10) + n % 10) := by ring
      rw [h2, hn]

theorem natDigitsGo_ne_nil (f n : Nat) (h : 0 < f) : natDigitsGo f n ≠ [] := by
  match f, h with
  | f + 1, _ =>
    rw [natDigitsGo]
    by_cases h10 : n < 10 <;> simp [h10]

theorem natDigitsGo_mem_digits (f : Nat) :
    ∀ m : Nat, ∀ x ∈ natDigitsGo f m,
      x ∈ ['0','1','2','3','4','5','6','7','8','9'] := by
  induction f with
  | zero => intro m x hx; simp [natDigitsGo] at hx
  | succ f ih =>
    intro m x hx
    rw [natDigitsGo] at hx
    by_cases h10 : m < 10
    · rw [if_pos h10] at hx
      simp only [List.mem_singleton] at hx
      subst hx
      exact digitChar_mem m h10
    · rw [if_neg h10] at hx
      simp only [List.mem_append, List.mem_singleton] at hx
      cases hx with
      | inl hmem => exact ih _ x hmem
      | inr hlast =>
        subst hlast
        exact digitChar_mem _ (Nat.mod_lt m (by omega))

theorem parseNatDigits_natToDigitChars (n : Nat) :
    parseNatDigits (natToDigitChars n) = some n := by
  have hne := natDigitsGo_ne_nil (n + 1) n (by omega)
  have hval := parseNatChars_natDigitsGo (n + 1) n 0 (by omega)
  unfold natToDigitChars parseNatDigits
  match hyp : natDigitsGo (n + 1) n with
  | [] => exact absurd hyp hne
  | c :: rest =>
    show parseNatChars (c :: rest) 0 = some n
    rw [← hyp, hval]
    simp

theorem pyStrInt_pyIntStr (i : Int) : pyStrInt (pyIntStr i) = some i := by
  cases i with
  | ofNat n =>
    have hne : natToDigitChars n ≠ [] := natDigitsGo_ne_nil (n + 1) n (by omega)
    have hval := parseNatDigits_natToDigitChars n
    show pyCharsInt (natToDigitChars n) = some (Int.ofNat n)
    match hyp : natToDigitChars n with
    | [] => exact absurd hyp hne
    | c :: rest =>
      have hcd : c ∈ ['0','1','2','3','4','5','6','7','8','9'] := by
        apply natDigitsGo_mem_digits (n + 1) n
        show c ∈ natToDigitChars n
        rw [hyp]
        exact List.mem_cons_self c rest
      have hc1 : ¬ (c = '-') := by fin_cases hcd <;> decide
      have hc2 : ¬ (c = '+') := by fin_cases hcd <;> decide
      rw [hyp] at hval
      simp [pyCharsInt, hc1, hc2, hval]
  | negSucc n =>
    show pyCharsInt ('-' :: natToDigitChars (n + 1)) = some (Int.negSucc n)
    simp [pyCharsInt, parseNatDigits_natToDigitChars (n + 1), Int.negSucc_eq]

/-! ### JWT claim values

Claim values appearing in this service's tokens: strings (role, stringified
subject) and integers (the raw `user.id` passed to `create_access_token`). -/

inductive JValue where
  | jstr : String → JValue
  | jint : Int → JValue
deriving DecidableEq

/-- Python `str()` applied to a claim value, as in
`to_encode["sub"] = str(to_encode["sub"])`. -/
def pyStr : JValue → String
  | .jstr s => s
  | .jint n => pyIntStr n

/-- Python `int()` applied to a claim value, as in `user_id = int(sub_claim)`;
`none` models the raised `ValueError`/`TypeError`. -/
def pyInt : JValue → Option Int
  | .jstr s => pyStrInt s
  | .jint n => some n

/-! ### auth.py: module constants -/

def SECRET_KEY : String := "your-secret-key-change-in-production"

def ACCESS_TOKEN_EXPIRE_MINUTES : Int := 30

/-! ### auth.py: Credential Hasher

Modelled from the spec: `verify_password`/`get_password_hash` delegate
entirely to passlib's bcrypt `CryptContext` (third-party, not under `src/`).
Per spec §4.1 the hasher is a salted one-way function: `hash` produces an
opaque digest from the plaintext and a salt, `verify` recomputes and
compares, a malformed stored digest makes verification report `false`
rather than raising.  The bcrypt image is idealized as collision-free. -/

inductive Digest where
  | bcrypt : Nat → String → Digest
  | malformed : String → Digest
deriving DecidableEq

def get_password_hash (password : String) (salt : Nat) : Digest :=
  .bcrypt salt password

def verify_password (plain_password : String) (hashed_password : Digest) : Bool :=
  match hashed_password with
  | .bcrypt _ image => plain_password = image
  | .malformed _ => false

/-! ### auth.py: Token Issuer -/

/-- The dict passed to `create_access_token` by `login`:
`{"sub": user.id, "role": user.role}` (either entry may be absent/None). -/
structure TokenData where
  sub : Option JValue
  role : Option JValue
deriving DecidableEq

/-- The encoded claims set: `sub` and `role` as left by
`create_access_token`, plus the always-set `exp`. -/
structure Claims where
  sub : Option JValue
  role : Option JValue
  exp : Int
deriving DecidableEq

/-- `create_access_token` (auth.py): copies the data, stringifies a present
non-null `sub` (Python `str()` never raises on these values, so the
`except` fallback that drops `sub` is unreachable), and sets
`exp = now + expires_delta`, defaulting to 30 minutes. -/
def create_access_token (data : TokenData) (now : Int)
    (expires_delta : Option Int) : Claims :=
  let sub' := data.sub.map (fun v => JValue.jstr (pyStr v))
  let expire :=
    match expires_delta with
    | some d => now + d
    | none => now + ACCESS_TOKEN_EXPIRE_MINUTES * 60
  { sub := sub', role := data.role, exp := expire }

/-- Modelled from the spec: `jwt.encode`/`jwt.decode` live in python-jose
(third-party, not under `src/`).  Per spec §4.3/§6/§8 a token is a signed
three-part structure: decoding with the signing key recovers the claims;
a structurally malformed token, or one signed under a different key, is
rejected; an expired token (`now ≥ exp`, i.e. valid exactly on
`[issuance, exp)`) is rejected.  `signed` carries the key it was signed
with; `malformed` is any non-token string. -/
inductive Token where
  | signed : String → Claims → Token
  | malformed : String → Token
deriving DecidableEq

def jwtEncode (claims : Claims) (key : String) : Token :=
  .signed key claims

def jwtDecode (tok : Token) (key : String) (now : Int) : Option Claims :=
  match tok with
  | .malformed _ => none
  | .signed k c =>
    if k = key then
      if now ≥ c.exp then none else some c
    else none

/-! ### auth.py: Token Verifier -/

/-- An exception carrying an HTTP status: `HTTPException(status_code, detail)`. -/
structure HTTPErr where
  statusCode : Nat
  detail : String
deriving DecidableEq

/-- Result of an auth-path computation: normal return or a raised
`HTTPException`. -/
inductive Res (α : Type) where
  | ok : α → Res α
  | err : HTTPErr → Res α
deriving DecidableEq

/-- The dict returned by `verify_token`:
`{"user_id": user_id, "role": payload.get("role")}`. -/
structure TokenInfo where
  user_id : Int
  role : Option JValue
deriving DecidableEq

/-- `verify_token` (auth.py): decode (signature + expiry) —
`JWTError` → 401 "Invalid token"; missing `sub` → 401 "Invalid token";
`int(sub_claim)` failing → 401 "Invalid token subject"; otherwise the
user id and the role claim taken directly from the payload.  The inner
`HTTPException`s are not `JWTError`s, so the `except JWTError` clause does
not intercept them. -/
def verify_token (tok : Token) (key : String) (now : Int) : Res TokenInfo :=
  match jwtDecode tok key now with
  | none => .err ⟨401, "Invalid token"⟩
  | some payload =>
    match payload.sub with
    | none => .err ⟨401, "Invalid token"⟩
    | some sub_claim =>
      match pyInt sub_claim with
      | none => .err ⟨401, "Invalid token subject"⟩
      | some user_id => .ok ⟨user_id, payload.role⟩

/-! ### models.py: User rows and the store -/

/-- `models.UserRole` is a str-enum; the `role` column stores the plain
string value. -/
def UserRole.ADMIN : String := "admin"

def UserRole.USER : String := "user"

structure User where
  id : Int
  username : String
  email : String
  hashed_password : Digest
  role : String
  is_active : Bool
  created_at : Int
deriving DecidableEq

/-- The users table. -/
structure Store where
  users : List User
deriving DecidableEq

def Store.findById (db : Store) (uid : Int) : Option User :=
  db.users.find? (fun u => u.id == uid)

def Store.findByUsername (db : Store) (uname : String) : Option User :=
  db.users.find? (fun u => u.username == uname)

/-- Result of the raw ORM query: a row set or an underlying store fault
(the exception raised by the session/driver). -/
inductive DbRes (α : Type) where
  | ok : α → DbRes α
  | fault : String → DbRes α
deriving DecidableEq

/-- A healthy store's lookup: `db.query(User).filter(User.id == uid).first()`. -/
def dbLookupOf (db : Store) : Int → DbRes (Option User) :=
  fun uid => .ok (db.findById uid)

/-! ### auth.py: Identity Resolver and Access Gate -/

/-- `get_current_user` (auth.py): verify the token, then look the user up
inside a `try` block whose `except Exception` clause re-raises every
failure — including the `HTTPException(401, "User not found")` raised for
a missing row, which is itself an `Exception` — as
`HTTPException(401, "User lookup failed")`. -/
def get_current_user (tok : Token) (key : String) (now : Int)
    (dbLookup : Int → DbRes (Option User)) : Res User :=
  match verify_token tok key now with
  | .err e => .err e
  | .ok token_data =>
    match dbLookup token_data.user_id with
    | .fault _ => .err ⟨401, "User lookup failed"⟩
    | .ok none => .err ⟨401, "User lookup failed"⟩
    | .ok (some u) => .ok u

/-- `require_admin` (auth.py): compares the *stored* user's role against
`UserRole.ADMIN`. -/
def require_admin (user : User) : Res User :=
  if user.role ≠ UserRole.ADMIN then .err ⟨403, "Admin access required"⟩
  else .ok user

/-- The dependency chain guarding `POST /products`:
`require_admin(user = Depends(get_current_user))`. -/
def adminGate (tok : Token) (key : String) (now : Int)
    (dbLookup : Int → DbRes (Option User)) : Res User :=
  match get_current_user tok key now dbLookup with
  | .err e => .err e
  | .ok u => require_admin u

/-! ### schemas.py / main.py: handlers -/

/-- `schemas.UserResponse`: exactly the fields serialized back to callers. -/
structure UserResponse where
  username : String
  email : String
  id : Int
  role : String
  is_active : Bool
  created_at : Int
deriving DecidableEq

/-- Pydantic `from_attributes` serialization of a `models.User` row through
`response_model=UserResponse`: copies the declared fields, nothing else. -/
def userToResponse (u : User) : UserResponse :=
  { username := u.username, email := u.email, id := u.id, role := u.role,
    is_active := u.is_active, created_at := u.created_at }

structure UserCreate where
  username : String
  email : String
  password : String
deriving DecidableEq

/-- Outcome of a request handler: a response, a raised `HTTPException`
(converted to its status by the framework), or an exception no handler
converts (FastAPI surfaces it as a 500 server fault). -/
inductive PyOutcome (α : Type) where
  | ok : α → PyOutcome α
  | httpError : HTTPErr → PyOutcome α
  | unhandledValueError : String → PyOutcome α
deriving DecidableEq

/-- `register` (main.py): reject an existing username by raising
`ValueError("User already exists")` (a bare `ValueError`, not an
`HTTPException`); otherwise hash the password and insert a row with
`role=UserRole.USER` and the column defaults `is_active=True`,
`created_at=now`.  `nextId` stands for the autoincrement key; `salt` for
bcrypt's fresh salt. -/
def register (user : UserCreate) (db : Store) (salt : Nat) (nextId : Int)
    (now : Int) : PyOutcome (UserResponse × Store) :=
  match db.findByUsername user.username with
  | some _ => .unhandledValueError "User already exists"
  | none =>
    let hashed_password := get_password_hash user.password salt
    let db_user : User :=
      { id := nextId, username := user.username, email := user.email,
        hashed_password := hashed_password, role := UserRole.USER,
        is_active := true, created_at := now }
    .ok (userToResponse db_user, ⟨db.users ++ [db_user]⟩)

/-- `schemas.TokenResponse`. -/
structure TokenResponse where
  access_token : Token
  token_type : String
  user : UserResponse
deriving DecidableEq

/-- `login` (main.py): find by username; a missing user or a failed
password check raises a bare `ValueError("Invalid credentials")`; otherwise
issue a token from `{"sub": user.id, "role": user.role}` with the default
lifetime. -/
def login (username password : String) (db : Store) (now : Int) :
    PyOutcome TokenResponse :=
  match db.findByUsername username with
  | none => .unhandledValueError "Invalid credentials"
  | some u =>
    if verify_password password u.hashed_password then
      let claims := create_access_token
        ⟨some (.jint u.id), some (.jstr u.role)⟩ now none
      .ok ⟨jwtEncode claims SECRET_KEY, "bearer", userToResponse u⟩
    else .unhandledValueError "Invalid credentials"

/-! ### The exposed API surface, as a transition system on the users table

`main.py` exposes `/`, `/register`, `/login`, `/products` (POST admin-gated,
GET public), `/products/{id}`, `/health`.  Only `register` writes the users
table; every other endpoint reads it or touches the products table only. -/

inductive ApiOp where
  | opRegister : UserCreate → Nat → Int → Int → ApiOp
  | opLogin : String → String → Int → ApiOp
  | opReadOnly : ApiOp
deriving DecidableEq

/-- Effect of one exposed operation on the users table. -/
def applyOp (db : Store) : ApiOp → Store
  | .opRegister u salt nextId now =>
    match register u db salt nextId now with
    | .ok (_, db') => db'
    | _ => db
  | .opLogin _ _ _ => db
  | .opReadOnly => db

def applyOps (db : Store) (ops : List ApiOp) : Store :=
  ops.foldl applyOp db

def emptyStore : Store := ⟨[]⟩

/-! ### Helper lemmas about the embedded code -/

/-- The token `login` issues for a user with id `uid` and stored role
`roleStr`: `create_access_token(data={"sub": user.id, "role": user.role})`
signed with the module key. -/
def issuedToken (uid : Int) (roleStr : String) (t0 : Int) (ttl : Option Int) :
    Token :=
  jwtEncode (create_access_token ⟨some (.jint uid), some (.jstr roleStr)⟩ t0 ttl)
    SECRET_KEY

theorem verify_issuedToken (uid : Int) (roleStr : String) (t0 ttl now : Int)
    (h : now < t0 + ttl) :
    verify_token (issuedToken uid roleStr t0 (some ttl)) SECRET_KEY now
      = .ok ⟨uid, some (.jstr roleStr)⟩ := by
  have hlt : ¬ now ≥ t0 + ttl := by omega
  simp [issuedToken, jwtEncode, verify_token, jwtDecode, create_access_token,
    pyStr, pyInt, pyStrInt_pyIntStr, hlt]

theorem verify_issuedToken_expired (uid : Int) (roleStr : String)
    (t0 ttl now : Int) (h : t0 + ttl ≤ now) :
    verify_token (issuedToken uid roleStr t0 (some ttl)) SECRET_KEY now
      = .err ⟨401, "Invalid token"⟩ := by
  have hge : now ≥ t0 + ttl := by omega
  simp [issuedToken, jwtEncode, verify_token, jwtDecode, create_access_token, hge]

theorem jwtDecode_signed_ok (key : String) (c : Claims) (now : Int)
    (h : now < c.exp) : jwtDecode (.signed key c) key now = some c := by
  show (if key = key then if now ≥ c.exp then none else some c else none)
    = some c
  rw [if_pos rfl, if_neg (by omega : ¬ now ≥ c.exp)]

theorem verify_token_err_code (tok : Token) (key : String) (now : Int)
    (e : HTTPErr) (h : verify_token tok key now = .err e) :
    e.statusCode = 401 := by
  unfold verify_token at h
  split at h
  · cases h; rfl
  · split at h
    · cases h; rfl
    · split at h
      · cases h; rfl
      · exact absurd h (by simp)

theorem get_current_user_err_code (tok : Token) (key : String) (now : Int)
    (dbLookup : Int → DbRes (Option User)) (e : HTTPErr)
    (h : get_current_user tok key now dbLookup = .err e) :
    e.statusCode = 401 := by
  unfold get_current_user at h
  split at h
  · rename_i e0 hv
    have hcode := verify_token_err_code tok key now e0 hv
    cases h
    exact hcode
  · split at h
    · cases h; rfl
    · cases h; rfl
    · exact absurd h (by simp)

theorem get_current_user_ok_mem (tok : Token) (key : String) (now : Int)
    (db : Store) (u : User)
    (h : get_current_user tok key now (dbLookupOf db) = .ok u) :
    u ∈ db.users := by
  unfold get_current_user at h
  split at h
  · exact absurd h (by simp)
  · simp only [dbLookupOf] at h
    split at h
    · exact absurd h (by simp)
    · exact absurd h (by simp)
    · rename_i u0 heq
      cases h
      injection heq with heq2
      unfold Store.findById at heq2
      exact List.mem_of_find?_eq_some heq2

theorem register_ok_users (uc : UserCreate) (db : Store) (salt : Nat)
    (nextId now : Int) (r : UserResponse) (db' : Store)
    (h : register uc db salt nextId now = .ok (r, db')) :
    db' = ⟨db.users ++
      [{ id := nextId, username := uc.username, email := uc.email,
         hashed_password := get_password_hash uc.password salt,
         role := UserRole.USER, is_active := true, created_at := now }]⟩ ∧
    r = userToResponse
      { id := nextId, username := uc.username, email := uc.email,
        hashed_password := get_password_hash uc.password salt,
        role := UserRole.USER, is_active := true, created_at := now } := by
  unfold register at h
  split at h
  · exact absurd h (by simp)
  · simp only [PyOutcome.ok.injEq, Prod.mk.injEq] at h
    exact ⟨h.2.symm, h.1.symm⟩

/-- One exposed operation preserves "all stored users are active regular
users": only a successful registration writes the table, and it writes
`role=UserRole.USER`, `is_active=True`. -/
theorem applyOp_preserves_invariant (db : Store) (op : ApiOp)
    (h : ∀ u ∈ db.users, u.role = UserRole.USER ∧ u.is_active = true) :
    ∀ u ∈ (applyOp db op).users, u.role = UserRole.USER ∧ u.is_active = true := by
  cases op with
  | opLogin un pw now => exact h
  | opReadOnly => exact h
  | opRegister uc salt nextId now =>
    simp only [applyOp]
    cases hreg : register uc db salt nextId now with
    | httpError e => exact h
    | unhandledValueError m => exact h
    | ok p =>
      obtain ⟨r, db'⟩ := p
      have husers := (register_ok_users uc db salt nextId now r db' hreg).1
      subst husers
      intro u hu
      rcases List.mem_append.mp hu with hmem | hnew
      · exact h u hmem
      · simp only [List.mem_singleton] at hnew
        subst hnew
        exact ⟨rfl, rfl⟩

theorem applyOps_invariant (ops : List ApiOp) :
    ∀ db : Store, (∀ u ∈ db.users, u.role = UserRole.USER ∧ u.is_active = true) →
      ∀ u ∈ (applyOps db ops).users,
        u.role = UserRole.USER ∧ u.is_active = true := by
  induction ops with
  | nil => intro db h; exact h
  | cons op rest ih =>
    intro db h
    exact ih (applyOp db op) (applyOp_preserves_invariant db op h)

theorem gate_rejects_of_invariant (db : Store)
    (h : ∀ u ∈ db.users, u.role = UserRole.USER ∧ u.is_active = true)
    (tok : Token) (now : Int) :
    ∃ e : HTTPErr, adminGate tok SECRET_KEY now (dbLookupOf db) = .err e ∧
      (e.statusCode = 401 ∨ e.statusCode = 403) := by
  cases hg : get_current_user tok SECRET_KEY now (dbLookupOf db) with
  | err e =>
    have hgate : adminGate tok SECRET_KEY now (dbLookupOf db) = .err e := by
      unfold adminGate
      rw [hg]
    exact ⟨e, hgate,
      Or.inl (get_current_user_err_code tok SECRET_KEY now (dbLookupOf db) e hg)⟩
  | ok u =>
    have hmem := get_current_user_ok_mem tok SECRET_KEY now db u hg
    have hrole := (h u hmem).1
    have hne : u.role ≠ UserRole.ADMIN := by
      rw [hrole]
      decide
    have hgate : adminGate tok SECRET_KEY now (dbLookupOf db) = require_admin u := by
      unfold adminGate
      rw [hg]
    refine ⟨⟨403, "Admin access required"⟩, ?_, Or.inr rfl⟩
    rw [hgate]
    unfold require_admin
    rw [if_pos hne]

/-! ### Concrete fixtures -/

/-- User #42 as stored at token-issuance time: role `USER`. -/
def user42 : User :=
  ⟨42, "fxavier", "fx@example.com", .bcrypt 0 "pw0", UserRole.USER, true, 0⟩

/-- The same row after an out-of-band role change to `ADMIN`. -/
def user42Admin : User := { user42 with role := UserRole.ADMIN }

/-- The token `login` issues for `user42` at time 0 (default 30-minute ttl). -/
def tok42 : Token :=
  jwtEncode (create_access_token ⟨some (.jint 42), some (.jstr UserRole.USER)⟩ 0 none)
    SECRET_KEY

/-- The row `register ⟨"alice", "alice@example.com", "secret123"⟩` inserts
into the empty store with salt 0, id 1, at time 0. -/
def aliceRow : User :=
  ⟨1, "alice", "alice@example.com", .bcrypt 0 "secret123", UserRole.USER, true, 0⟩

/-- The store reached from empty by registering alice. -/
def aliceStore : Store :=
  applyOps emptyStore [.opRegister ⟨"alice", "alice@example.com", "secret123"⟩ 0 1 0]

/-- A row stored for username "bob". -/
def bobRow : User :=
  ⟨1, "bob", "bob@example.com", .bcrypt 0 "pw1", UserRole.USER, true, 0⟩

/-! ### Claims -/

/-- C1 (counterexample): the claim says a token issued while user 42 had role
USER is rejected by the admin gate even after the stored role changes to
ADMIN, until re-issued.  At this concrete input — the token `login` issues at
time 0 for `user42` (role USER), presented at time 60 when the store holds
`user42Admin` — `verify_token` does resolve the stale role USER, but
`require_admin` checks the freshly loaded row's role, so the gate ADMITS the
request, refuting the claimed rejection. -/
theorem c1_counterexample :
    login "fxavier" "pw0" ⟨[user42]⟩ 0
      = .ok ⟨tok42, "bearer", userToResponse user42⟩ ∧
    verify_token tok42 SECRET_KEY 60 = .ok ⟨42, some (.jstr UserRole.USER)⟩ ∧
    adminGate tok42 SECRET_KEY 60 (dbLookupOf ⟨[user42Admin]⟩)
      = .ok user42Admin := by
  decide

/-- C1 (amended): a token issued with role USER still resolves through
`verify_token` with the stale role claim USER after the stored role changes,
but the admin gate authorizes against the current stored role loaded by
`get_current_user`, so once the store records ADMIN the request passes the
gate without a new token being issued. -/
theorem c1_amended_gate_uses_stored_role (uid t0 ttl now : Int) (db : Store)
    (u : User) (h1 : t0 ≤ now) (h2 : now < t0 + ttl)
    (hu : db.findById uid = some u) (hrole : u.role = UserRole.ADMIN) :
    verify_token (issuedToken uid UserRole.USER t0 (some ttl)) SECRET_KEY now
      = .ok ⟨uid, some (.jstr UserRole.USER)⟩ ∧
    adminGate (issuedToken uid UserRole.USER t0 (some ttl)) SECRET_KEY now
      (dbLookupOf db) = .ok u := by
  have hv := verify_issuedToken uid UserRole.USER t0 ttl now h2
  have hgcu : get_current_user (issuedToken uid UserRole.USER t0 (some ttl))
      SECRET_KEY now (dbLookupOf db) = .ok u := by
    unfold get_current_user
    rw [hv]
    simp only [dbLookupOf]
    rw [hu]
  refine ⟨hv, ?_⟩
  unfold adminGate
  rw [hgcu]
  show require_admin u = Res.ok u
  unfold require_admin
  rw [if_neg (not_not.mpr hrole)]

/-- C1 (amended, witness): concrete instance at user 42. -/
theorem c1_amended_witness :
    verify_token (issuedToken 42 UserRole.USER 0 (some 1800)) SECRET_KEY 60
      = .ok ⟨42, some (.jstr UserRole.USER)⟩ ∧
    adminGate (issuedToken 42 UserRole.USER 0 (some 1800)) SECRET_KEY 60
      (dbLookupOf ⟨[user42Admin]⟩) = .ok user42Admin :=
  c1_amended_gate_uses_stored_role 42 0 1800 60 ⟨[user42Admin]⟩ user42Admin
    (by decide) (by decide) (by decide) (by decide)

/-- C2 (code evaluated at the failing input): the claim expects a missing
user id to produce the distinct UserNotFound error, distinguishable from
LookupFailed.  In `get_current_user` the `HTTPException(401, "User not
found")` raised for a missing row is itself caught by the blanket
`except Exception` and re-raised as `HTTPException(401, "User lookup
failed")` — so a missing user and a genuine store fault produce the
identical error, with no distinguishable code/detail. -/
theorem c2_notfound_indistinguishable_eval :
    get_current_user tok42 SECRET_KEY 60 (dbLookupOf emptyStore)
      = .err ⟨401, "User lookup failed"⟩ ∧
    get_current_user tok42 SECRET_KEY 60 (fun _ => .fault "connection refused")
      = .err ⟨401, "User lookup failed"⟩ := by
  decide

/-- C3 (code evaluated at the failing input): the claim expects a duplicate
registration to be rejected as a converted caller-facing client error and no
error to propagate unhandled.  `register` raises a bare
`ValueError("User already exists")` — not an `HTTPException` — which no
handler converts, so it propagates to the framework as an unhandled fault
(a 500 server error); `login` does the same for bad credentials. -/
theorem c3_duplicate_register_unhandled_eval :
    register ⟨"bob", "bob2@example.com", "pw2"⟩ ⟨[bobRow]⟩ 1 2 5
      = .unhandledValueError "User already exists" ∧
    login "ghost" "pw" emptyStore 0
      = .unhandledValueError "Invalid credentials" := by
  decide

/-- C4: `verify_token`'s failure taxonomy.  A structurally malformed token,
or one signed under a different key, is rejected 401 "Invalid token"; an
unexpired well-signed token with no `sub` claim is rejected 401 "Invalid
token"; a present but non-integer-coercible `sub` is rejected with the
distinguishable 401 "Invalid token subject"; on success the integer user id
and the role taken directly from the claims are returned.  Every rejection
carries status 401. -/
theorem c4_verify_token_taxonomy (key : String) (now : Int) :
    (∀ raw : String,
      verify_token (.malformed raw) key now = .err ⟨401, "Invalid token"⟩) ∧
    (∀ (k : String) (c : Claims), k ≠ key →
      verify_token (.signed k c) key now = .err ⟨401, "Invalid token"⟩) ∧
    (∀ c : Claims, now < c.exp → c.sub = none →
      verify_token (.signed key c) key now = .err ⟨401, "Invalid token"⟩) ∧
    (∀ (c : Claims) (v : JValue), now < c.exp → c.sub = some v →
      pyInt v = none →
      verify_token (.signed key c) key now
        = .err ⟨401, "Invalid token subject"⟩) ∧
    (∀ (c : Claims) (v : JValue) (uid : Int),
      now < c.exp → c.sub = some v → pyInt v = some uid →
      verify_token (.signed key c) key now = .ok ⟨uid, c.role⟩) := by
  refine ⟨fun raw => rfl, ?_, ?_, ?_, ?_⟩
  · intro k c hk
    simp [verify_token, jwtDecode, hk]
  · intro c hexp hsub
    unfold verify_token
    rw [jwtDecode_signed_ok key c now hexp]
    simp [hsub]
  · intro c v hexp hsub hv
    unfold verify_token
    rw [jwtDecode_signed_ok key c now hexp]
    simp [hsub, hv]
  · intro c v uid hexp hsub hv
    unfold verify_token
    rw [jwtDecode_signed_ok key c now hexp]
    simp [hsub, hv]

/-- C4 (witness): each taxonomy case at a concrete input. -/
theorem c4_taxonomy_witness :
    (("bad" : String) ≠ SECRET_KEY ∧
      verify_token (.signed "bad" ⟨some (.jstr "42"), none, 100⟩) SECRET_KEY 0
        = .err ⟨401, "Invalid token"⟩) ∧
    ((0 : Int) < 100 ∧ (⟨none, none, 100⟩ : Claims).sub = none ∧
      verify_token (.signed SECRET_KEY ⟨none, none, 100⟩) SECRET_KEY 0
        = .err ⟨401, "Invalid token"⟩) ∧
    (pyInt (.jstr "abc") = none ∧
      verify_token (.signed SECRET_KEY ⟨some (.jstr "abc"), none, 100⟩)
        SECRET_KEY 0 = .err ⟨401, "Invalid token subject"⟩) ∧
    (pyInt (.jstr "42") = some 42 ∧
      verify_token
        (.signed SECRET_KEY ⟨some (.jstr "42"), some (.jstr "user"), 100⟩)
        SECRET_KEY 0 = .ok ⟨42, some (.jstr "user")⟩) :=
  ⟨⟨by decide, (c4_verify_token_taxonomy SECRET_KEY 0).2.1 "bad"
      ⟨some (.jstr "42"), none, 100⟩ (by decide)⟩,
   ⟨by decide, rfl, (c4_verify_token_taxonomy SECRET_KEY 0).2.2.1
      ⟨none, none, 100⟩ (by decide) rfl⟩,
   ⟨by decide, (c4_verify_token_taxonomy SECRET_KEY 0).2.2.2.1
      ⟨some (.jstr "abc"), none, 100⟩ (.jstr "abc") (by decide) rfl (by decide)⟩,
   ⟨by decide, (c4_verify_token_taxonomy SECRET_KEY 0).2.2.2.2
      ⟨some (.jstr "42"), some (.jstr "user"), 100⟩ (.jstr "42") 42
      (by decide) rfl (by decide)⟩⟩

/-- C5: round-trip of the credential hasher (modelled from the spec, §4.1:
the implementation is passlib's bcrypt, not under `src/`; the salted digest
is idealized collision-free).  `verify(P, hash(P))` is true for every
plaintext and salt; `verify(P1, hash(P2))` is false whenever `P1 ≠ P2`. -/
theorem c5_hash_verify_roundtrip :
    (∀ (P : String) (salt : Nat),
      verify_password P (get_password_hash P salt) = true) ∧
    (∀ (P1 P2 : String) (salt : Nat), P1 ≠ P2 →
      verify_password P1 (get_password_hash P2 salt) = false) := by
  constructor
  · intro P salt
    simp [verify_password, get_password_hash]
  · intro P1 P2 salt hne
    simp [verify_password, get_password_hash, hne]

/-- C5 (witness): concrete plaintexts. -/
theorem c5_roundtrip_witness :
    verify_password "secret123" (get_password_hash "secret123" 7) = true ∧
    ("secret123" : String) ≠ "hunter2" ∧
    verify_password "secret123" (get_password_hash "hunter2" 7) = false :=
  ⟨c5_hash_verify_roundtrip.1 "secret123" 7, by decide,
    c5_hash_verify_roundtrip.2 "secret123" "hunter2" 7 (by decide)⟩

/-- C6: for every subject claim value (string or raw integer), role, issuance
time and ttl, `create_access_token` produces claims whose `sub` is the string
serialization of the subject (never a raw number), whose `role` is carried
unchanged, and whose `exp` is `now + ttl`. -/
theorem c6_issued_claims_shape (v : JValue) (role : Option JValue)
    (now ttl : Int) :
    (create_access_token ⟨some v, role⟩ now (some ttl)).sub
      = some (.jstr (pyStr v)) ∧
    (create_access_token ⟨some v, role⟩ now (some ttl)).role = role ∧
    (create_access_token ⟨some v, role⟩ now (some ttl)).exp = now + ttl ∧
    (∃ s : String,
      (create_access_token ⟨some v, role⟩ now (some ttl)).sub
        = some (.jstr s)) :=
  ⟨rfl, rfl, rfl, ⟨pyStr v, rfl⟩⟩

/-- C7: a token issued at `t0` with ttl `T` verifies successfully at every
time in `[t0, t0 + T)` and fails with the 401 "Invalid token" rejection at
every time `≥ t0 + T`; with no explicit ttl the expiry defaults to
`now + ACCESS_TOKEN_EXPIRE_MINUTES * 60` with the constant equal to 30
minutes.  (The JWT layer is modelled from the spec: python-jose is not under
`src/`.) -/
theorem c7_token_lifetime (uid t0 T now : Int) (roleStr : String) :
    (t0 ≤ now → now < t0 + T →
      verify_token (issuedToken uid roleStr t0 (some T)) SECRET_KEY now
        = .ok ⟨uid, some (.jstr roleStr)⟩) ∧
    (t0 + T ≤ now →
      verify_token (issuedToken uid roleStr t0 (some T)) SECRET_KEY now
        = .err ⟨401, "Invalid token"⟩) ∧
    (∀ data : TokenData, (create_access_token data now none).exp
      = now + ACCESS_TOKEN_EXPIRE_MINUTES * 60) ∧
    ACCESS_TOKEN_EXPIRE_MINUTES = 30 :=
  ⟨fun _ h2 => verify_issuedToken uid roleStr t0 T now h2,
   fun hge => verify_issuedToken_expired uid roleStr t0 T now hge,
   fun _ => rfl, rfl⟩

/-- C7 (witness): a token with ttl 1800s issued at time 0 verifies at 60 and
is rejected at exactly 1800. -/
theorem c7_lifetime_witness :
    ((0 : Int) ≤ 60 ∧ (60 : Int) < 0 + 1800 ∧
      verify_token (issuedToken 7 "user" 0 (some 1800)) SECRET_KEY 60
        = .ok ⟨7, some (.jstr "user")⟩) ∧
    ((0 : Int) + 1800 ≤ 1800 ∧
      verify_token (issuedToken 7 "user" 0 (some 1800)) SECRET_KEY 1800
        = .err ⟨401, "Invalid token"⟩) :=
  ⟨⟨by decide, by decide,
      (c7_token_lifetime 7 0 1800 60 "user").1 (by decide) (by decide)⟩,
   ⟨by decide, (c7_token_lifetime 7 0 1800 1800 "user").2.1 (by decide)⟩⟩

/-- C8: password verification is total — it returns a boolean for every
plaintext and stored digest, and on a malformed stored digest it reports
`false` rather than raising.  (Modelled from the spec, §4.1: the hasher is
passlib's bcrypt, not under `src/`.) -/
theorem c8_verify_total (plain : String) (d : Digest) :
    (verify_password plain d = true ∨ verify_password plain d = false) ∧
    (∀ raw : String, verify_password plain (.malformed raw) = false) := by
  constructor
  · cases h : verify_password plain d
    · exact Or.inr rfl
    · exact Or.inl rfl
  · intro raw
    rfl

/-- C9: the password hash is never serialized back to callers.  The response
schema carries exactly username, email, id, role, active flag and creation
timestamp; it is invariant under any change of the stored hash; and every
successful `register` and `login` response embeds a user record produced by
exactly that serialization of a stored row. -/
theorem c9_response_omits_hash :
    (∀ (u : User) (d : Digest),
      userToResponse { u with hashed_password := d } = userToResponse u) ∧
    (∀ u : User, userToResponse u
      = ⟨u.username, u.email, u.id, u.role, u.is_active, u.created_at⟩) ∧
    (∀ (uc : UserCreate) (db : Store) (salt : Nat) (nextId now : Int)
        (r : UserResponse) (db' : Store),
      register uc db salt nextId now = .ok (r, db') →
        ∃ du ∈ db'.users, r = userToResponse du) ∧
    (∀ (un pw : String) (db : Store) (now : Int) (r : TokenResponse),
      login un pw db now = .ok r →
        ∃ u ∈ db.users, r.user = userToResponse u) := by
  refine ⟨fun u d => rfl, fun u => rfl, ?_, ?_⟩
  · intro uc db salt nextId now r db' h
    obtain ⟨hdb, hr⟩ := register_ok_users uc db salt nextId now r db' h
    subst hdb
    exact ⟨_, by simp, hr⟩
  · intro un pw db now r h
    unfold login at h
    split at h
    · exact absurd h (by simp)
    · rename_i u hfind
      unfold Store.findByUsername at hfind
      split at h
      · cases h
        exact ⟨u, List.mem_of_find?_eq_some hfind, rfl⟩
      · exact absurd h (by simp)

/-- C9 (witness): a concrete successful registration and login. -/
theorem c9_omits_hash_witness :
    (∃ du ∈ (Store.mk [aliceRow]).users,
      userToResponse aliceRow = userToResponse du) ∧
    (∃ u ∈ (Store.mk [user42]).users,
      (TokenResponse.mk tok42 "bearer" (userToResponse user42)).user
        = userToResponse u) :=
  ⟨c9_response_omits_hash.2.2.1 ⟨"alice", "alice@example.com", "secret123"⟩
      emptyStore 0 1 0 (userToResponse aliceRow) ⟨[aliceRow]⟩ (by decide),
   c9_response_omits_hash.2.2.2 "fxavier" "pw0" ⟨[user42]⟩ 0
      ⟨tok42, "bearer", userToResponse user42⟩ (by decide)⟩

/-- C10: starting from an empty store, every user reachable through the
exposed API surface has role USER and is active — registration hard-codes
`role=UserRole.USER` with the `is_active=True` default and no exposed
operation changes a role — so the admin-gated product write rejects every
request (401 or 403) whatever token is presented: the gate is unreachable
through the public register/login flow. -/
theorem c10_admin_unreachable_from_public_flow (ops : List ApiOp) :
    (∀ u ∈ (applyOps emptyStore ops).users,
      u.role = UserRole.USER ∧ u.is_active = true) ∧
    (∀ (tok : Token) (now : Int),
      ∃ e : HTTPErr,
        adminGate tok SECRET_KEY now (dbLookupOf (applyOps emptyStore ops))
          = .err e ∧ (e.statusCode = 401 ∨ e.statusCode = 403)) := by
  have hinv := applyOps_invariant ops emptyStore
    (by intro u hu; simp [emptyStore] at hu)
  exact ⟨hinv, fun tok now => gate_rejects_of_invariant _ hinv tok now⟩

/-- C10 (witness): after registering alice, her row is a plain active user
and the gate rejects the `user42` token. -/
theorem c10_unreachable_witness :
    (aliceRow.role = UserRole.USER ∧ aliceRow.is_active = true) ∧
    (∃ e : HTTPErr,
      adminGate tok42 SECRET_KEY 60 (dbLookupOf (applyOps emptyStore
          [.opRegister ⟨"alice", "alice@example.com", "secret123"⟩ 0 1 0]))
        = .err e ∧ (e.statusCode = 401 ∨ e.statusCode = 403)) :=
  ⟨(c10_admin_unreachable_from_public_flow
      [.opRegister ⟨"alice", "alice@example.com", "secret123"⟩ 0 1 0]).1
      aliceRow (by decide),
   (c10_admin_unreachable_from_public_flow
      [.opRegister ⟨"alice", "alice@example.com", "secret123"⟩ 0 1 0]).2
      tok42 60⟩

end GkeDemo
